import Mathlib

/-!
Verification of the single-socket TLS reuse client
(src/clients/tls-reuse-client.ts and its variant with a reuseSocket
parameter).  The stateful TypeScript class is embedded as pure functions
over an explicit client state (the connection cache plus a fresh-id
counter).  External I/O (the TLS handshake outcome and the responses
produced by the HTTP/1.1 and HTTP/2 engines) is supplied by an
environment value per call.  Observable side effects on sockets and
sessions are recorded in an effect trace.
-/

namespace TLSReuse

/-- JS string coercion `s || d`: the empty string is falsy. -/
def jsOr (s d : String) : String := if s = "" then d else s

/-- JS coercion `x || d` where `x` is a possibly-absent string property
(absent property reads as undefined, which is falsy). -/
def jsGetOr (o : Option String) (d : String) : String := jsOr (o.getD "") d

/-- Value of a decimal digit run. -/
def digitsToNat (cs : List Char) : Nat :=
  cs.foldl (fun a c => a * 10 + (c.toNat - 48)) 0

/-- Parse the leading digit run; none models NaN (no digits). -/
def jsParseIntCore (cs : List Char) : Option Nat :=
  let ds := cs.takeWhile Char.isDigit
  if ds.isEmpty then none else some (digitsToNat ds)

/-- JS `parseInt(s)` (radix 10): skip leading whitespace, optional
sign, read the leading digit run; NaN (modelled as none) when no digits
are found. -/
def jsParseInt (s : String) : Option Int :=
  match s.data.dropWhile Char.isWhitespace with
  | '-' :: rest => (jsParseIntCore rest).map (fun n => -(n : Int))
  | '+' :: rest => (jsParseIntCore rest).map (fun n => (n : Int))
  | cs => (jsParseIntCore cs).map (fun n => (n : Int))

/-- JS `s.startsWith(pre)`. -/
def strStarts (s pre : String) : Bool := pre.data.isPrefixOf s.data

/-- JS number coercion `x || d`: both NaN (none) and 0 are falsy. -/
def jsNumOr (o : Option Int) (d : Int) : Int :=
  match o with
  | some n => if n = 0 then d else n
  | none => d

/-- The runtime value of `socket.alpnProtocol` in Node: a protocol
string, or `false` when ALPN negotiated no protocol, or `null` before
the handshake. -/
inductive AlpnValue where
  | str (s : String)
  | falseVal
  | nullVal
deriving DecidableEq

/-- JS coercion `socket.alpnProtocol || undefined` as used when building
a ClientResponse: every falsy value (false, null, empty string) becomes
undefined (none). -/
def AlpnValue.orUndefined : AlpnValue → Option String
  | .str s => if s = "" then none else some s
  | .falseVal => none
  | .nullVal => none

/-- A TLS socket as observed by the client: identity (to count distinct
handshakes), the liveness flags read by the health check, and the
negotiated ALPN value, fixed at handshake time. -/
structure Socket where
  id : Nat
  destroyed : Bool
  readable : Bool
  writable : Bool
  alpnProtocol : AlpnValue
deriving DecidableEq

/-- An HTTP/2 client session: identity, the socket it was bound to via
`createConnection: () => connection.socket`, and its destroyed flag. -/
structure Session where
  id : Nat
  boundSocket : Nat
  destroyed : Bool
deriving DecidableEq

/-- interface CachedConnection \x7b socket; session? \x7d -/
structure CachedConnection where
  socket : Socket
  session : Option Session
deriving DecidableEq

/-- The mutable state of a TLSReuseClient instance: the connection cache
(a map from "host:port" keys, embedded as an association list with
unique keys) plus a counter providing fresh socket/session identities. -/
structure ClientState where
  connectionCache : List (String × CachedConnection)
  nextId : Nat
deriving DecidableEq

/-- Map.get: first binding for the key, if any. -/
def cacheGet (c : List (String × CachedConnection)) (k : String) :
    Option CachedConnection :=
  match c.find? (fun p => p.1 == k) with
  | some p => some p.2
  | none => none

/-- Map.set: replace the binding in place if the key is present,
otherwise append. -/
def mapSet (c : List (String × CachedConnection)) (k : String)
    (v : CachedConnection) : List (String × CachedConnection) :=
  if c.any (fun p => p.1 == k) then
    c.map (fun p => if p.1 == k then (k, v) else p)
  else c ++ [(k, v)]

/-- Map.delete: drop any binding for the key. -/
def mapDelete (c : List (String × CachedConnection)) (k : String) :
    List (String × CachedConnection) :=
  c.filter (fun p => !(p.1 == k))

/-- Observable side effects on transports and sessions. -/
inductive Effect where
  | handshake (socketId : Nat)
  | closeSession (sessionId : Nat)
  | destroySocket (socketId : Nat)
  | newSession (sessionId : Nat) (socketId : Nat)
  | http1 (socketId : Nat)
  | http2 (sessionId : Nat) (socketId : Nat)
deriving DecidableEq

/-- Number of TLS handshakes (successful `tls.connect` completions) in a
trace. -/
def handshakeCount (fx : List Effect) : Nat :=
  (fx.filter (fun e => match e with | .handshake _ => true | _ => false)).length

/-- Outcome of attempting one TLS connection, chosen by the
environment: success with a server-selected ALPN value, or an error. -/
inductive ConnectOutcome where
  | ok (alpn : AlpnValue)
  | err
deriving DecidableEq

/-- What the HTTP/1.1 engine (http.request) yields for one exchange:
the parsed response.  statusCode may be absent, httpVersion is the
version string of the response as parsed off the wire. -/
structure Http1Res where
  statusCode : Option Nat
  headers : List (String × String)
  body : String
  httpVersion : String
deriving DecidableEq

/-- What the HTTP/2 engine yields for one stream: the response headers
(pseudo-headers included) and the concatenated body. -/
structure Http2Res where
  headers : List (String × String)
  body : String
deriving DecidableEq

/-- Environment for a single request() call. -/
structure RequestEnv where
  connect : ConnectOutcome
  http1 : Http1Res
  http2 : Http2Res
deriving DecidableEq

/-- interface ClientResponse.  statusCode is an Option Int so that the
NaN that `parseInt` can produce on the HTTP/2 path is representable
(none = NaN). -/
structure ClientResponse where
  statusCode : Option Int
  headers : List (String × String)
  body : String
  httpVersion : String
  alpnProtocol : Option String
deriving DecidableEq

/-- The URL fields read by the client, as produced by Node's WHATWG URL
class: hostname, the serialized port string, pathname, search, host. -/
structure ParsedURL where
  hostname : String
  port : String
  pathname : String
  search : String
  host : String
deriving DecidableEq

/-- WHATWG URL port serialization for an https URL: the port property
is the empty string when no port was written or when the written port
equals the scheme default 443; otherwise the decimal digits. -/
def urlPortString (port : Option Nat) : String :=
  match port with
  | none => ""
  | some p => if p = 443 then "" else toString p

/-- An https URL as parsed by `new URL`, from hostname, optional
explicit port, pathname and search. -/
def mkHttpsURL (hostname : String) (port : Option Nat)
    (pathname search : String) : ParsedURL :=
  { hostname := hostname
  , port := urlPortString port
  , pathname := pathname
  , search := search
  , host := if urlPortString port = "" then hostname
            else hostname ++ ":" ++ urlPortString port }

/-- `const port = parseInt(parsedUrl.port) || 443;
const connectionKey = hostname + ":" + port;` (request, lines 208-210). -/
def connectionKey (u : ParsedURL) : String :=
  u.hostname ++ ":" ++ toString (jsNumOr (jsParseInt u.port) 443)

/-- Result of one request() call: the value returned or the error
thrown, together with the client state (mutations to `this` persist
even when the call throws) and the effect trace. -/
structure ReqOut where
  result : Except Unit ClientResponse
  state : ClientState
  effects : List Effect

/-- Result of createTLSConnection. -/
structure ConnOut where
  result : Except Unit Socket
  state : ClientState
  effects : List Effect

/-- The socket a successful `tls.connect` resolves with: fresh
identity, live flags, carrying the negotiated ALPN value. -/
def freshSocket (n : Nat) (alpn : AlpnValue) : Socket :=
  { id := n, destroyed := false, readable := true, writable := true
  , alpnProtocol := alpn }

/-- createTLSConnection (lines 59-83): `tls.connect` with ALPNProtocols
["h2","http/1.1"]; resolves with the connected socket or rejects on
error.  The hostname and port are passed to the engine; the outcome is
chosen by the environment. -/
def createTLSConnection (hostname : String) (port : Int)
    (co : ConnectOutcome) (st : ClientState) : ConnOut :=
  match co with
  | .ok alpn =>
    { result := .ok (freshSocket st.nextId alpn)
    , state := { st with nextId := st.nextId + 1 }
    , effects := [.handshake st.nextId] }
  | .err => { result := .error (), state := st, effects := [] }

/-- makeHttp1Request (lines 85-132): one GET over the existing socket
via http.request with `createConnection: () => socket` and
`Connection: keep-alive`; the body chunks are concatenated, and the
result is built as
`statusCode: res.statusCode || 0, headers: res.headers, body,
httpVersion: res.httpVersion || "1.1",
alpnProtocol: socket.alpnProtocol || undefined`. -/
def makeHttp1Request (res : Http1Res) (socket : Socket) :
    ClientResponse × List Effect :=
  ({ statusCode := some (((res.statusCode.getD 0) : Nat) : Int)
   , headers := res.headers
   , body := res.body
   , httpVersion := jsOr res.httpVersion "1.1"
   , alpnProtocol := socket.alpnProtocol.orUndefined },
   [.http1 socket.id])

/-- Result of makeHttp2Request: the response, the connection object
(whose session field may have been assigned), the state, the trace. -/
structure Http2Out where
  resp : ClientResponse
  conn : CachedConnection
  state : ClientState
  effects : List Effect

/-- The session-creation condition of makeHttp2Request (line 140):
`!connection.session || connection.session.destroyed`. -/
def needNewSession (conn : CachedConnection) : Bool :=
  match conn.session with
  | none => true
  | some s => s.destroyed

/-- Body of makeHttp2Request after the session is settled (lines
158-203): issue the stream request and build the result as
`statusCode: parseInt(responseHeaders[":status"] as string || "0"),
headers: the response headers with every key starting with ":" dropped,
body, httpVersion: "2.0",
alpnProtocol: connection.socket.alpnProtocol || undefined`. -/
def makeHttp2Go (res : Http2Res) (session : Session)
    (conn : CachedConnection) (st : ClientState) (fx : List Effect) :
    Http2Out :=
  { resp :=
    { statusCode :=
        jsParseInt (jsGetOr ((res.headers.find? (fun p => p.1 == ":status")).map
          (fun p => p.2)) "0")
    , headers := res.headers.filter (fun p => !(strStarts p.1 ":"))
    , body := res.body
    , httpVersion := "2.0"
    , alpnProtocol := conn.socket.alpnProtocol.orUndefined }
  , conn := conn
  , state := st
  , effects := fx ++ [.http2 session.id conn.socket.id] }

/-- makeHttp2Request (lines 134-204): create or reuse the HTTP/2
session.  When no session exists or the existing one is destroyed,
`http2.connect` is called with `createConnection: () => connection.socket`,
so the new session is bound to the existing socket and no new
connection is opened; the session is assigned to `connection.session`.
Then the stream request is issued (makeHttp2Go). -/
def makeHttp2Request (res : Http2Res) (conn : CachedConnection)
    (st : ClientState) : Http2Out :=
  if needNewSession conn then
    let s2 : Session :=
      { id := st.nextId, boundSocket := conn.socket.id, destroyed := false }
    makeHttp2Go res s2 { conn with session := some s2 }
      { st with nextId := st.nextId + 1 }
      [.newSession s2.id conn.socket.id]
  else
    match conn.session with
    | some s => makeHttp2Go res s conn st []
    | none =>
      -- unreachable: needNewSession conn = false forces session = some s
      makeHttp2Go res { id := st.nextId, boundSocket := conn.socket.id
                      , destroyed := false } conn st []

/-- The health check of request (line 219):
`connection.socket.destroyed || !connection.socket.readable ||
!connection.socket.writable`. -/
def socketStale (s : Socket) : Bool :=
  s.destroyed || !s.readable || !s.writable

/-- The eviction step for the session (lines 221-223, and identically
closeAll lines 255-257): `if (connection.session &&
!connection.session.destroyed) connection.session.close()`. -/
def closeSessionFx (conn : CachedConnection) : List Effect :=
  match conn.session with
  | some s => if !s.destroyed then [.closeSession s.id] else []
  | none => []

/-- Tail of request (lines 238-247): read the negotiated protocol from
the live transport and dispatch.  `stored` records whether `connection`
is the object held in the cache: in JS the assignment
`connection.session = ...` inside makeHttp2Request then mutates the
cached entry, which the embedding models by writing the updated
connection back under the key. -/
def finishRequest (env : RequestEnv) (key : String)
    (conn : CachedConnection) (stored : Bool) (st : ClientState)
    (fx : List Effect) : ReqOut :=
  if conn.socket.alpnProtocol == AlpnValue.str "h2" then
    let o := makeHttp2Request env.http2 conn st
    let st2 := if stored then
        { o.state with connectionCache := mapSet o.state.connectionCache key o.conn }
      else o.state
    { result := .ok o.resp, state := st2, effects := fx ++ o.effects }
  else
    let p := makeHttp1Request env.http1 conn.socket
    { result := .ok p.1, state := st, effects := fx ++ p.2 }

/-- The cached-entry branch of request (lines 215-230 plus the shared
tail; identical in both client variants): health-check the socket; on a
stale socket close the session (if present and live), delete the entry,
connect anew and install the fresh connection under the same key —
note the stale socket itself is never destroyed here. -/
def reuseCachedBranch (env : RequestEnv) (hostname : String) (port : Int)
    (key : String) (conn : CachedConnection) (st : ClientState) : ReqOut :=
  if socketStale conn.socket then
    let fx1 := closeSessionFx conn
    let st1 := { st with connectionCache := mapDelete st.connectionCache key }
    let c := createTLSConnection hostname port env.connect st1
    match c.result with
    | .error e => { result := .error e, state := c.state, effects := fx1 ++ c.effects }
    | .ok socket =>
      let conn2 : CachedConnection := { socket := socket, session := none }
      let st2 := { c.state with
        connectionCache := mapSet c.state.connectionCache key conn2 }
      finishRequest env key conn2 true st2 (fx1 ++ c.effects)
  else
    finishRequest env key conn true st []

/-- request(url) of src/clients/tls-reuse-client.ts (lines 206-248):
parse the URL, look the key up in the cache, reuse or (re)connect, then
dispatch on the negotiated ALPN protocol of the live transport. -/
def request (env : RequestEnv) (u : ParsedURL) (st : ClientState) : ReqOut :=
  let hostname := u.hostname
  let port := jsNumOr (jsParseInt u.port) 443
  let key := connectionKey u
  match cacheGet st.connectionCache key with
  | some conn => reuseCachedBranch env hostname port key conn st
  | none =>
    let c := createTLSConnection hostname port env.connect st
    match c.result with
    | .error e => { result := .error e, state := c.state, effects := c.effects }
    | .ok socket =>
      let conn : CachedConnection := { socket := socket, session := none }
      let st2 := { c.state with
        connectionCache := mapSet c.state.connectionCache key conn }
      finishRequest env key conn true st2 c.effects

/-- request(url, reuseSocket = true) of the client variant (unnamed
part, lines 301-346): as request, except the cache is consulted only
when reuseSocket holds, and a freshly created connection is stored only
when reuseSocket holds (`if (reuseSocket)
this.connectionCache.set(connectionKey, connection)`). -/
def requestWith (env : RequestEnv) (u : ParsedURL) (reuseSocket : Bool)
    (st : ClientState) : ReqOut :=
  let hostname := u.hostname
  let port := jsNumOr (jsParseInt u.port) 443
  let key := connectionKey u
  match reuseSocket, cacheGet st.connectionCache key with
  | true, some conn => reuseCachedBranch env hostname port key conn st
  | rs, _ =>
    let c := createTLSConnection hostname port env.connect st
    match c.result with
    | .error e => { result := .error e, state := c.state, effects := c.effects }
    | .ok socket =>
      let conn : CachedConnection := { socket := socket, session := none }
      let st2 := if rs then
          { c.state with
            connectionCache := mapSet c.state.connectionCache key conn }
        else c.state
      finishRequest env key conn rs st2 c.effects

/-- Teardown of one cached entry in closeAll (lines 254-261): close the
session if present and not destroyed, destroy the socket if not
destroyed. -/
def closeConnFx (p : String × CachedConnection) : List Effect :=
  closeSessionFx p.2 ++
  (if !p.2.socket.destroyed then [.destroySocket p.2.socket.id] else [])

/-- closeAll (lines 253-263): tear down every cached entry, then clear
the cache. -/
def closeAll (st : ClientState) : ClientState × List Effect :=
  ({ st with connectionCache := [] },
   (st.connectionCache.map closeConnFx).flatten)

/-- getCachedSocketCount (lines 268-270): the size of the cache. -/
def getCachedSocketCount (st : ClientState) : Nat :=
  st.connectionCache.length

/-- Sequential request() calls; stops at the first thrown error. -/
def runRequests (calls : List (RequestEnv × ParsedURL)) (st : ClientState) :
    Except Unit (ClientState × List Effect) :=
  match calls with
  | [] => .ok (st, [])
  | (env, u) :: rest =>
    let o := request env u st
    match o.result with
    | .error e => .error e
    | .ok _ =>
      match runRequests rest o.state with
      | .error e => .error e
      | .ok (st2, fx2) => .ok (st2, o.effects ++ fx2)

instance {ε α : Type} [DecidableEq ε] [DecidableEq α] :
    DecidableEq (Except ε α)
  | .ok a, .ok b =>
    if h : a = b then .isTrue (by rw [h])
    else .isFalse (by intro hc; cases hc; exact h rfl)
  | .ok _, .error _ => .isFalse (by intro hc; cases hc)
  | .error _, .ok _ => .isFalse (by intro hc; cases hc)
  | .error e, .error f =>
    if h : e = f then .isTrue (by rw [h])
    else .isFalse (by intro hc; cases hc; exact h rfl)

/-! ## Concrete fixtures, used to instantiate the theorems -/

/-- https://example.com/test as parsed by new URL. -/
def exURL : ParsedURL :=
  { hostname := "example.com", port := "", pathname := "/test", search := ""
  , host := "example.com" }

def exHttp1 : Http1Res :=
  { statusCode := some 200, headers := [("content-type", "text/plain")]
  , body := "ok", httpVersion := "1.1" }

def exHttp2 : Http2Res :=
  { headers := [(":status", "200"), ("content-type", "text/plain")]
  , body := "ok" }

/-- Environment where the server selects h2. -/
def exEnvH2 : RequestEnv :=
  { connect := .ok (.str "h2"), http1 := exHttp1, http2 := exHttp2 }

/-- Environment where the server selects http/1.1. -/
def exEnvH1 : RequestEnv :=
  { connect := .ok (.str "http/1.1"), http1 := exHttp1, http2 := exHttp2 }

/-- Environment where the TLS connect fails. -/
def exEnvErr : RequestEnv :=
  { connect := .err, http1 := exHttp1, http2 := exHttp2 }

/-- A client with an empty cache. -/
def exEmpty : ClientState := { connectionCache := [], nextId := 0 }

/-- A socket that fails the health check (not readable). -/
def exStaleSock : Socket :=
  { id := 0, destroyed := false, readable := false, writable := true
  , alpnProtocol := .str "h2" }

/-- A live, not destroyed session bound to socket 0. -/
def exSess : Session := { id := 1, boundSocket := 0, destroyed := false }

def exStaleConn : CachedConnection :=
  { socket := exStaleSock, session := some exSess }

/-- A client holding a stale connection for example.com:443. -/
def exStaleState : ClientState :=
  { connectionCache := [("example.com:443", exStaleConn)], nextId := 2 }

/-- A live cached connection without a session. -/
def exLiveConn : CachedConnection :=
  { socket := freshSocket 0 (.str "h2"), session := none }

/-- A live cached connection with a live session. -/
def exLiveConnSess : CachedConnection :=
  { socket := freshSocket 0 (.str "h2"), session := some exSess }

/-- A client holding a live connection for example.com:443. -/
def exLiveState : ClientState :=
  { connectionCache := [("example.com:443", exLiveConn)], nextId := 2 }

/-- A socket whose alpnProtocol reports false (no protocol
negotiated). -/
def exSockFalse : Socket :=
  { id := 0, destroyed := false, readable := true, writable := true
  , alpnProtocol := .falseVal }

/-- The response produced by the HTTP/2 path of exEnvH2 on a fresh
connection. -/
def exResp2 : ClientResponse :=
  { statusCode := some 200, headers := [("content-type", "text/plain")]
  , body := "ok", httpVersion := "2.0", alpnProtocol := some "h2" }

/-! ## Helper lemmas -/

theorem cacheGet_mapSet_self (c : List (String × CachedConnection))
    (k : String) (v : CachedConnection) :
    cacheGet (mapSet c k v) k = some v := by
  unfold mapSet
  by_cases h : c.any (fun p => p.1 == k)
  · simp only [h, if_true]
    induction c with
    | nil => simp at h
    | cons p t ih =>
      by_cases hp : p.1 == k
      · simp [cacheGet, List.find?, hp]
      · simp only [List.any_cons, hp, Bool.false_or] at h
        simp only [List.map_cons, hp, if_false]
        simpa [cacheGet, List.find?, hp] using ih h
  · simp only [h, if_false]
    have hnone : c.find? (fun p => p.1 == k) = none := by
      rw [List.find?_eq_none]
      intro x hx
      intro hk
      exact h (List.any_eq_true.mpr ⟨x, hx, hk⟩)
    simp [cacheGet, List.find?_append, hnone, List.find?]

theorem cacheGet_mapDelete_self (c : List (String × CachedConnection))
    (k : String) : cacheGet (mapDelete c k) k = none := by
  unfold mapDelete cacheGet
  have hnone : (c.filter (fun p => !(p.1 == k))).find? (fun p => p.1 == k) = none := by
    rw [List.find?_eq_none]
    intro x hx
    have h2 := (List.mem_filter.mp hx).2
    simp only [Bool.not_eq_true'] at h2
    simp [h2]
  rw [hnone]

theorem handshakeCount_append (a b : List Effect) :
    handshakeCount (a ++ b) = handshakeCount a + handshakeCount b := by
  simp [handshakeCount, List.filter_append]

theorem handshakeCount_closeSessionFx (conn : CachedConnection) :
    handshakeCount (closeSessionFx conn) = 0 := by
  unfold closeSessionFx
  cases conn.session with
  | none => simp [handshakeCount]
  | some s => by_cases h : s.destroyed <;> simp [h, handshakeCount]

theorem makeHttp2Request_socket (res : Http2Res) (conn : CachedConnection)
    (st : ClientState) :
    (makeHttp2Request res conn st).conn.socket = conn.socket := by
  unfold makeHttp2Request
  by_cases h : needNewSession conn
  · simp [h, makeHttp2Go]
  · simp only [h, if_false]
    cases hs : conn.session <;> simp [makeHttp2Go]

theorem makeHttp2Request_effects (res : Http2Res) (conn : CachedConnection)
    (st : ClientState) :
    handshakeCount (makeHttp2Request res conn st).effects = 0 ∧
    (∀ i, Effect.destroySocket i ∉ (makeHttp2Request res conn st).effects) ∧
    (∀ i, Effect.closeSession i ∉ (makeHttp2Request res conn st).effects) ∧
    (∃ sid, Effect.http2 sid conn.socket.id ∈ (makeHttp2Request res conn st).effects) := by
  unfold makeHttp2Request
  by_cases h : needNewSession conn
  · simp [h, makeHttp2Go, handshakeCount]
  · simp only [h, if_false]
    cases hs : conn.session <;> simp [makeHttp2Go, handshakeCount]

theorem makeHttp2Request_cache (res : Http2Res) (conn : CachedConnection)
    (st : ClientState) :
    (makeHttp2Request res conn st).state.connectionCache = st.connectionCache := by
  unfold makeHttp2Request
  by_cases h : needNewSession conn
  · simp [h, makeHttp2Go]
  · simp only [h, if_false]
    cases hs : conn.session <;> simp [makeHttp2Go]

theorem makeHttp2Request_resp (res : Http2Res) (conn : CachedConnection)
    (st : ClientState) :
    (makeHttp2Request res conn st).resp.httpVersion = "2.0" ∧
    (makeHttp2Request res conn st).resp.alpnProtocol
      = conn.socket.alpnProtocol.orUndefined := by
  unfold makeHttp2Request
  by_cases h : needNewSession conn
  · simp [h, makeHttp2Go]
  · simp only [h, if_false]
    cases hs : conn.session <;> simp [makeHttp2Go]

/-- Full behavior of the dispatch tail when the dispatched connection is
the one stored in the cache under the key. -/
theorem finishRequest_spec (env : RequestEnv) (key : String)
    (conn : CachedConnection) (st : ClientState) (fx : List Effect)
    (hc : cacheGet st.connectionCache key = some conn) :
    ∃ resp conn2,
      (finishRequest env key conn true st fx).result = .ok resp ∧
      cacheGet (finishRequest env key conn true st fx).state.connectionCache key
        = some conn2 ∧
      conn2.socket = conn.socket ∧
      handshakeCount (finishRequest env key conn true st fx).effects
        = handshakeCount fx ∧
      resp.alpnProtocol = conn.socket.alpnProtocol.orUndefined ∧
      (conn.socket.alpnProtocol = AlpnValue.str "h2" →
        resp.httpVersion = "2.0" ∧
        ∃ sid, Effect.http2 sid conn.socket.id
          ∈ (finishRequest env key conn true st fx).effects) ∧
      (conn.socket.alpnProtocol ≠ AlpnValue.str "h2" →
        Effect.http1 conn.socket.id
          ∈ (finishRequest env key conn true st fx).effects ∧
        resp.httpVersion = jsOr env.http1.httpVersion "1.1") := by
  unfold finishRequest
  by_cases h : conn.socket.alpnProtocol == AlpnValue.str "h2"
  · have h' : conn.socket.alpnProtocol = AlpnValue.str "h2" := by
      simpa using h
    obtain ⟨hh, hd, _hcl, sid, hsid⟩ := makeHttp2Request_effects env.http2 conn st
    obtain ⟨hv, ha⟩ := makeHttp2Request_resp env.http2 conn st
    refine ⟨(makeHttp2Request env.http2 conn st).resp,
      (makeHttp2Request env.http2 conn st).conn, ?_⟩
    simp only [h, if_true]
    refine ⟨by trivial, ?_, ?_, ?_, ?_, ?_, ?_⟩
    · simpa using cacheGet_mapSet_self
        (makeHttp2Request env.http2 conn st).state.connectionCache key
        (makeHttp2Request env.http2 conn st).conn
    · exact makeHttp2Request_socket env.http2 conn st
    · simp [handshakeCount_append, hh]
    · exact ha
    · intro _
      exact ⟨hv, sid, by simp [hsid]⟩
    · intro hne
      exact absurd h' hne
  · have h' : conn.socket.alpnProtocol ≠ AlpnValue.str "h2" := by
      simpa using h
    refine ⟨(makeHttp1Request env.http1 conn.socket).1, conn, ?_⟩
    simp only [h, if_false]
    refine ⟨by trivial, hc, by trivial, ?_, ?_, ?_, ?_⟩
    · simp [makeHttp1Request, handshakeCount_append, handshakeCount]
    · simp [makeHttp1Request]
    · intro hcontra
      exact absurd hcontra h'
    · intro _
      constructor
      · simp [makeHttp1Request]
      · simp [makeHttp1Request]

/-- request on a cache hit with a live socket reduces to the dispatch
tail. -/
theorem request_hit_eq (env : RequestEnv) (u : ParsedURL) (st : ClientState)
    (conn : CachedConnection)
    (hc : cacheGet st.connectionCache (connectionKey u) = some conn)
    (hl : socketStale conn.socket = false) :
    request env u st = finishRequest env (connectionKey u) conn true st [] := by
  unfold request reuseCachedBranch
  simp [hc, hl]

/-- request on a cache miss with a successful connect installs a fresh
connection before dispatching. -/
theorem request_miss_eq (env : RequestEnv) (u : ParsedURL) (st : ClientState)
    (alpn : AlpnValue)
    (hc : cacheGet st.connectionCache (connectionKey u) = none)
    (ha : env.connect = ConnectOutcome.ok alpn) :
    request env u st =
      finishRequest env (connectionKey u)
        { socket := freshSocket st.nextId alpn, session := none } true
        { connectionCache := mapSet st.connectionCache (connectionKey u)
            { socket := freshSocket st.nextId alpn, session := none }
        , nextId := st.nextId + 1 }
        [.handshake st.nextId] := by
  unfold request createTLSConnection
  simp [hc, ha]

/-- request on a cache miss with a failed connect throws and leaves the
state untouched. -/
theorem request_miss_err_eq (env : RequestEnv) (u : ParsedURL)
    (st : ClientState)
    (hc : cacheGet st.connectionCache (connectionKey u) = none)
    (he : env.connect = ConnectOutcome.err) :
    request env u st = { result := .error (), state := st, effects := [] } := by
  unfold request createTLSConnection
  simp [hc, he]

/-- request on a stale cache hit with a successful connect: close the
session, evict, reconnect, install, dispatch. -/
theorem request_stale_eq (env : RequestEnv) (u : ParsedURL)
    (st : ClientState) (conn : CachedConnection) (alpn : AlpnValue)
    (hc : cacheGet st.connectionCache (connectionKey u) = some conn)
    (hs : socketStale conn.socket = true)
    (ha : env.connect = ConnectOutcome.ok alpn) :
    request env u st =
      finishRequest env (connectionKey u)
        { socket := freshSocket st.nextId alpn, session := none } true
        { connectionCache :=
            mapSet (mapDelete st.connectionCache (connectionKey u))
              (connectionKey u)
              { socket := freshSocket st.nextId alpn, session := none }
        , nextId := st.nextId + 1 }
        (closeSessionFx conn ++ [.handshake st.nextId]) := by
  unfold request reuseCachedBranch createTLSConnection
  simp [hc, hs, ha]

/-- request on a stale cache hit with a failed connect: the session is
closed and the entry evicted, then the error propagates with the entry
already gone. -/
theorem request_stale_err_eq (env : RequestEnv) (u : ParsedURL)
    (st : ClientState) (conn : CachedConnection)
    (hc : cacheGet st.connectionCache (connectionKey u) = some conn)
    (hs : socketStale conn.socket = true)
    (he : env.connect = ConnectOutcome.err) :
    request env u st =
      { result := .error ()
      , state := { st with
          connectionCache := mapDelete st.connectionCache (connectionKey u) }
      , effects := closeSessionFx conn } := by
  unfold request reuseCachedBranch createTLSConnection
  simp [hc, hs, he]

theorem request_hit_spec (env : RequestEnv) (u : ParsedURL)
    (st : ClientState) (conn : CachedConnection)
    (hc : cacheGet st.connectionCache (connectionKey u) = some conn)
    (hl : socketStale conn.socket = false) :
    ∃ resp conn2,
      (request env u st).result = .ok resp ∧
      cacheGet (request env u st).state.connectionCache (connectionKey u)
        = some conn2 ∧
      conn2.socket = conn.socket ∧
      handshakeCount (request env u st).effects = 0 := by
  rw [request_hit_eq env u st conn hc hl]
  obtain ⟨resp, conn2, h1, h2, h3, h4, _⟩ :=
    finishRequest_spec env (connectionKey u) conn st [] hc
  exact ⟨resp, conn2, h1, h2, h3, by simpa [handshakeCount] using h4⟩

theorem request_miss_spec (env : RequestEnv) (u : ParsedURL)
    (st : ClientState) (alpn : AlpnValue)
    (hc : cacheGet st.connectionCache (connectionKey u) = none)
    (ha : env.connect = ConnectOutcome.ok alpn) :
    ∃ resp conn2,
      (request env u st).result = .ok resp ∧
      cacheGet (request env u st).state.connectionCache (connectionKey u)
        = some conn2 ∧
      conn2.socket = freshSocket st.nextId alpn ∧
      handshakeCount (request env u st).effects = 1 := by
  rw [request_miss_eq env u st alpn hc ha]
  have hc2 : cacheGet
      (mapSet st.connectionCache (connectionKey u)
        { socket := freshSocket st.nextId alpn, session := none })
      (connectionKey u)
      = some { socket := freshSocket st.nextId alpn, session := none } :=
    cacheGet_mapSet_self _ _ _
  obtain ⟨resp, conn2, h1, h2, h3, h4, _⟩ :=
    finishRequest_spec env (connectionKey u)
      { socket := freshSocket st.nextId alpn, session := none }
      { connectionCache := mapSet st.connectionCache (connectionKey u)
          { socket := freshSocket st.nextId alpn, session := none }
      , nextId := st.nextId + 1 }
      [.handshake st.nextId] hc2
  exact ⟨resp, conn2, h1, h2, h3, by simpa [handshakeCount] using h4⟩

theorem request_stale_spec (env : RequestEnv) (u : ParsedURL)
    (st : ClientState) (conn : CachedConnection) (alpn : AlpnValue)
    (hc : cacheGet st.connectionCache (connectionKey u) = some conn)
    (hs : socketStale conn.socket = true)
    (ha : env.connect = ConnectOutcome.ok alpn) :
    ∃ resp conn2,
      (request env u st).result = .ok resp ∧
      cacheGet (request env u st).state.connectionCache (connectionKey u)
        = some conn2 ∧
      conn2.socket = freshSocket st.nextId alpn ∧
      handshakeCount (request env u st).effects = 1 := by
  rw [request_stale_eq env u st conn alpn hc hs ha]
  have hc2 : cacheGet
      (mapSet (mapDelete st.connectionCache (connectionKey u)) (connectionKey u)
        { socket := freshSocket st.nextId alpn, session := none })
      (connectionKey u)
      = some { socket := freshSocket st.nextId alpn, session := none } :=
    cacheGet_mapSet_self _ _ _
  obtain ⟨resp, conn2, h1, h2, h3, h4, _⟩ :=
    finishRequest_spec env (connectionKey u)
      { socket := freshSocket st.nextId alpn, session := none }
      { connectionCache :=
          mapSet (mapDelete st.connectionCache (connectionKey u))
            (connectionKey u)
            { socket := freshSocket st.nextId alpn, session := none }
      , nextId := st.nextId + 1 }
      (closeSessionFx conn ++ [.handshake st.nextId]) hc2
  refine ⟨resp, conn2, h1, h2, h3, ?_⟩
  rw [h4, handshakeCount_append, handshakeCount_closeSessionFx]
  simp [handshakeCount]

/-- A fresh socket passes the health check. -/
theorem freshSocket_live (n : Nat) (alpn : AlpnValue) :
    socketStale (freshSocket n alpn) = false := by
  simp [socketStale, freshSocket]

/-- After any successful request() the cache holds a live connection
under the key. -/
theorem request_ok_live (env : RequestEnv) (u : ParsedURL)
    (st : ClientState) (resp : ClientResponse)
    (h : (request env u st).result = .ok resp) :
    ∃ conn2,
      cacheGet (request env u st).state.connectionCache (connectionKey u)
        = some conn2 ∧
      socketStale conn2.socket = false := by
  cases hcg : cacheGet st.connectionCache (connectionKey u) with
  | none =>
    cases hco : env.connect with
    | ok alpn =>
      obtain ⟨resp', conn2, _, h2, h3, _⟩ := request_miss_spec env u st alpn hcg hco
      exact ⟨conn2, h2, by rw [h3]; exact freshSocket_live _ _⟩
    | err =>
      rw [request_miss_err_eq env u st hcg hco] at h
      simp at h
  | some conn =>
    by_cases hst : socketStale conn.socket
    · cases hco : env.connect with
      | ok alpn =>
        obtain ⟨resp', conn2, _, h2, h3, _⟩ :=
          request_stale_spec env u st conn alpn hcg hst hco
        exact ⟨conn2, h2, by rw [h3]; exact freshSocket_live _ _⟩
      | err =>
        rw [request_stale_err_eq env u st conn hcg hst hco] at h
        simp at h
    · obtain ⟨resp', conn2, _, h2, h3, _⟩ :=
        request_hit_spec env u st conn hcg (by simpa using hst)
      exact ⟨conn2, h2, by rw [h3]; simpa using hst⟩

theorem closeSessionFx_no_destroy (conn : CachedConnection) (i : Nat) :
    Effect.destroySocket i ∉ closeSessionFx conn := by
  unfold closeSessionFx
  cases conn.session with
  | none => simp
  | some s => by_cases h : s.destroyed <;> simp [h]

theorem finishRequest_no_destroy (env : RequestEnv) (key : String)
    (conn : CachedConnection) (stored : Bool) (st : ClientState)
    (fx : List Effect) (hfx : ∀ i, Effect.destroySocket i ∉ fx) :
    ∀ i, Effect.destroySocket i
      ∉ (finishRequest env key conn stored st fx).effects := by
  intro i
  unfold finishRequest
  by_cases h : conn.socket.alpnProtocol == AlpnValue.str "h2"
  · simp only [h, if_true]
    obtain ⟨_, hd, _, _⟩ := makeHttp2Request_effects env.http2 conn st
    intro hmem
    rcases List.mem_append.mp hmem with hm | hm
    · exact hfx i hm
    · exact hd i hm
  · simp only [h, if_false]
    intro hmem
    rcases List.mem_append.mp hmem with hm | hm
    · exact hfx i hm
    · simp [makeHttp1Request] at hm

/-- request() never destroys any socket: in particular an evicted stale
transport is not destroyed. -/
theorem request_no_destroy (env : RequestEnv) (u : ParsedURL)
    (st : ClientState) :
    ∀ i, Effect.destroySocket i ∉ (request env u st).effects := by
  intro i
  cases hcg : cacheGet st.connectionCache (connectionKey u) with
  | none =>
    cases hco : env.connect with
    | ok alpn =>
      rw [request_miss_eq env u st alpn hcg hco]
      exact finishRequest_no_destroy env _ _ true _ _ (by simp) i
    | err =>
      rw [request_miss_err_eq env u st hcg hco]
      simp
  | some conn =>
    by_cases hst : socketStale conn.socket
    · cases hco : env.connect with
      | ok alpn =>
        rw [request_stale_eq env u st conn alpn hcg hst hco]
        refine finishRequest_no_destroy env _ _ true _ _ ?_ i
        intro j
        simp only [List.mem_append]
        rintro (hmem | hmem)
        · exact closeSessionFx_no_destroy conn j hmem
        · simp at hmem
      | err =>
        rw [request_stale_err_eq env u st conn hcg hst hco]
        exact closeSessionFx_no_destroy conn i
    · rw [request_hit_eq env u st conn hcg (by simpa using hst)]
      exact finishRequest_no_destroy env _ _ true _ _ (by simp) i

/-- A run whose every call targets the key of an existing live cached
entry performs no handshake. -/
theorem runRequests_hits (calls : List (RequestEnv × ParsedURL)) :
    ∀ (st : ClientState) (k : String) (conn : CachedConnection),
    (∀ p ∈ calls, connectionKey p.2 = k) →
    cacheGet st.connectionCache k = some conn →
    socketStale conn.socket = false →
    ∀ st' fx, runRequests calls st = .ok (st', fx) →
    handshakeCount fx = 0 := by
  induction calls with
  | nil =>
    intro st k conn _ _ _ st' fx h
    simp [runRequests] at h
    rw [h.2]
    simp [handshakeCount]
  | cons hd tl ih =>
    intro st k conn hk hc hl st' fx h
    obtain ⟨env, u⟩ := hd
    have hku : connectionKey u = k := hk (env, u) (by simp)
    rw [← hku] at hc
    obtain ⟨resp, conn2, h1, h2, h3, h4⟩ := request_hit_spec env u st conn hc hl
    simp only [runRequests, h1] at h
    cases hrec : runRequests tl (request env u st).state with
    | error e => rw [hrec] at h; simp at h
    | ok pr =>
      obtain ⟨st2, fx2⟩ := pr
      rw [hrec] at h
      simp only [Except.ok.injEq, Prod.mk.injEq] at h
      rw [← h.2]
      rw [handshakeCount_append, h4]
      have := ih (request env u st).state k conn2
        (fun p hp => hk p (by simp [hp]))
        (by rw [← hku]; exact h2)
        (by rw [h3]; exact hl)
        st2 fx2 hrec
      simpa using this

theorem finishRequest_mem_fx (env : RequestEnv) (key : String)
    (conn : CachedConnection) (stored : Bool) (st : ClientState)
    (fx : List Effect) (e : Effect) (he : e ∈ fx) :
    e ∈ (finishRequest env key conn stored st fx).effects := by
  unfold finishRequest
  by_cases h : conn.socket.alpnProtocol == AlpnValue.str "h2"
  · simp only [h, if_true]
    exact List.mem_append_left _ he
  · simp only [h, if_false]
    exact List.mem_append_left _ he

theorem finishRequest_dispatch (env : RequestEnv) (key : String)
    (dconn : CachedConnection) (st0 : ClientState) (fx0 : List Effect)
    (hc0 : cacheGet st0.connectionCache key = some dconn)
    (resp : ClientResponse)
    (h : (finishRequest env key dconn true st0 fx0).result = .ok resp) :
    ∃ conn,
      cacheGet (finishRequest env key dconn true st0 fx0).state.connectionCache
        key = some conn ∧
      resp.alpnProtocol = conn.socket.alpnProtocol.orUndefined ∧
      (conn.socket.alpnProtocol = AlpnValue.str "h2" →
        resp.httpVersion = "2.0" ∧
        ∃ sid, Effect.http2 sid conn.socket.id
          ∈ (finishRequest env key dconn true st0 fx0).effects) ∧
      (conn.socket.alpnProtocol ≠ AlpnValue.str "h2" →
        Effect.http1 conn.socket.id
          ∈ (finishRequest env key dconn true st0 fx0).effects ∧
        resp.httpVersion = jsOr env.http1.httpVersion "1.1") := by
  obtain ⟨resp', conn2, h1, h2, h3, _, h5, h6, h7⟩ :=
    finishRequest_spec env key dconn st0 fx0 hc0
  have hr : resp' = resp := by
    have h8 := h1.symm.trans h
    injection h8
  subst hr
  refine ⟨conn2, h2, ?_, ?_, ?_⟩
  · rw [h3]; exact h5
  · rw [h3]; exact h6
  · rw [h3]; exact h7

theorem request_ok_dispatch (env : RequestEnv) (u : ParsedURL)
    (st : ClientState) (resp : ClientResponse)
    (h : (request env u st).result = .ok resp) :
    ∃ conn,
      cacheGet (request env u st).state.connectionCache (connectionKey u)
        = some conn ∧
      resp.alpnProtocol = conn.socket.alpnProtocol.orUndefined ∧
      (conn.socket.alpnProtocol = AlpnValue.str "h2" →
        resp.httpVersion = "2.0" ∧
        ∃ sid, Effect.http2 sid conn.socket.id ∈ (request env u st).effects) ∧
      (conn.socket.alpnProtocol ≠ AlpnValue.str "h2" →
        Effect.http1 conn.socket.id ∈ (request env u st).effects ∧
        resp.httpVersion = jsOr env.http1.httpVersion "1.1") := by
  cases hcg : cacheGet st.connectionCache (connectionKey u) with
  | none =>
    cases hco : env.connect with
    | ok alpn =>
      rw [request_miss_eq env u st alpn hcg hco] at h ⊢
      exact finishRequest_dispatch env (connectionKey u) _ _ _
        (cacheGet_mapSet_self _ _ _) resp h
    | err =>
      rw [request_miss_err_eq env u st hcg hco] at h
      simp at h
  | some conn =>
    by_cases hst : socketStale conn.socket
    · cases hco : env.connect with
      | ok alpn =>
        rw [request_stale_eq env u st conn alpn hcg hst hco] at h ⊢
        exact finishRequest_dispatch env (connectionKey u) _ _ _
          (cacheGet_mapSet_self _ _ _) resp h
      | err =>
        rw [request_stale_err_eq env u st conn hcg hst hco] at h
        simp at h
    · have hlf : socketStale conn.socket = false := by simpa using hst
      rw [request_hit_eq env u st conn hcg hlf] at h ⊢
      exact finishRequest_dispatch env (connectionKey u) _ _ _ hcg resp h

/-! ## The claims -/

/-- Claim C1: for every call to request(), the dispatch decision depends
only on the negotiated ALPN protocol read from the live transport (the
connection cached under the key after the call): when it equals "h2"
the HTTP/2 path runs and the result has httpVersion "2.0"; for every
other value the HTTP/1.1 path runs, and — given that the HTTP/1.1
engine reports the version of its exchange as "1.1" (or leaves it
unset) — the result has httpVersion "1.1". -/
theorem claim1 (env : RequestEnv) (u : ParsedURL) (st : ClientState)
    (resp : ClientResponse)
    (h : (request env u st).result = .ok resp) :
    ∃ conn,
      cacheGet (request env u st).state.connectionCache (connectionKey u)
        = some conn ∧
      (conn.socket.alpnProtocol = AlpnValue.str "h2" →
        resp.httpVersion = "2.0" ∧
        ∃ sid, Effect.http2 sid conn.socket.id ∈ (request env u st).effects) ∧
      (conn.socket.alpnProtocol ≠ AlpnValue.str "h2" →
        Effect.http1 conn.socket.id ∈ (request env u st).effects ∧
        (env.http1.httpVersion = "1.1" ∨ env.http1.httpVersion = "" →
          resp.httpVersion = "1.1")) := by
  obtain ⟨conn, hcg, _, hh2, hh1⟩ := request_ok_dispatch env u st resp h
  refine ⟨conn, hcg, hh2, fun hne => ?_⟩
  obtain ⟨hm, hv⟩ := hh1 hne
  refine ⟨hm, fun henv => ?_⟩
  rcases henv with he | he <;> rw [hv, he] <;> decide

theorem claim1_witness :
    ∃ conn,
      cacheGet (request exEnvH2 exURL exEmpty).state.connectionCache
        (connectionKey exURL) = some conn ∧
      (conn.socket.alpnProtocol = AlpnValue.str "h2" →
        exResp2.httpVersion = "2.0" ∧
        ∃ sid, Effect.http2 sid conn.socket.id
          ∈ (request exEnvH2 exURL exEmpty).effects) ∧
      (conn.socket.alpnProtocol ≠ AlpnValue.str "h2" →
        Effect.http1 conn.socket.id ∈ (request exEnvH2 exURL exEmpty).effects ∧
        (exEnvH2.http1.httpVersion = "1.1" ∨ exEnvH2.http1.httpVersion = "" →
          exResp2.httpVersion = "1.1")) :=
  claim1 exEnvH2 exURL exEmpty exResp2 (by decide)

/-- Claim C2: for any nonempty sequence of request() calls to the same
host:port (all URLs sharing one connection key), starting with no
cached entry for that key, a successful run performs exactly one TLS
handshake: only the first call connects, every later call reuses the
cached entry, regardless of the negotiated protocol. -/
theorem claim2 (calls : List (RequestEnv × ParsedURL)) (st : ClientState)
    (k : String) (hne : calls ≠ [])
    (hk : ∀ p ∈ calls, connectionKey p.2 = k)
    (hc : cacheGet st.connectionCache k = none)
    (st' : ClientState) (fx : List Effect)
    (h : runRequests calls st = .ok (st', fx)) :
    handshakeCount fx = 1 := by
  cases calls with
  | nil => exact absurd rfl hne
  | cons hd tl =>
    obtain ⟨env, u⟩ := hd
    have hku : connectionKey u = k := hk (env, u) (by simp)
    rw [← hku] at hc
    cases hco : env.connect with
    | err =>
      rw [show runRequests ((env, u) :: tl) st
          = (match (request env u st).result with
             | .error e => .error e
             | .ok _ =>
               match runRequests tl (request env u st).state with
               | .error e => .error e
               | .ok (st2, fx2) => .ok (st2, (request env u st).effects ++ fx2))
          from rfl] at h
      rw [request_miss_err_eq env u st hc hco] at h
      simp at h
    | ok alpn =>
      obtain ⟨resp, conn2, h1, h2, h3, h4⟩ := request_miss_spec env u st alpn hc hco
      simp only [runRequests, h1] at h
      cases hrec : runRequests tl (request env u st).state with
      | error e => rw [hrec] at h; simp at h
      | ok pr =>
        obtain ⟨st2, fx2⟩ := pr
        rw [hrec] at h
        simp only [Except.ok.injEq, Prod.mk.injEq] at h
        rw [← h.2, handshakeCount_append, h4]
        have h0 := runRequests_hits tl (request env u st).state k conn2
          (fun p hp => hk p (by simp [hp]))
          (by rw [← hku]; exact h2)
          (by rw [h3]; exact freshSocket_live _ _)
          st2 fx2 hrec
        rw [h0]

theorem claim2_witness :
    handshakeCount [Effect.handshake 0, Effect.newSession 1 0,
      Effect.http2 1 0, Effect.http2 1 0] = 1 :=
  claim2 [(exEnvH2, exURL), (exEnvH2, exURL)] exEmpty "example.com:443"
    (by decide) (by decide) (by decide)
    { connectionCache := [("example.com:443",
        { socket := freshSocket 0 (.str "h2")
        , session := some { id := 1, boundSocket := 0, destroyed := false } })]
    , nextId := 2 }
    [Effect.handshake 0, Effect.newSession 1 0, Effect.http2 1 0,
      Effect.http2 1 0]
    (by decide)

/-- Claim C3 is false as stated: on a stale cached entry, request()
closes the session and installs a fresh connection, but the stale
transport is NOT destroyed — at this concrete input the trace contains
no destroySocket for the stale socket. -/
theorem claim3_counterexample :
    cacheGet exStaleState.connectionCache (connectionKey exURL)
      = some exStaleConn ∧
    socketStale exStaleConn.socket = true ∧
    (cacheGet (request exEnvH2 exURL exStaleState).state.connectionCache
      (connectionKey exURL)).isSome = true ∧
    Effect.destroySocket exStaleConn.socket.id
      ∉ (request exEnvH2 exURL exStaleState).effects := by
  decide

/-- Claim C3 (amended): when request() finds a cached entry whose
transport fails the health check, the stale entry is evicted: its
session is closed if present and not already destroyed, and (on a
successful connect) a freshly created connection is installed in the
cache under the same key; the stale transport itself is not destroyed
(request() never destroys any socket). -/
theorem claim3 (env : RequestEnv) (u : ParsedURL) (st : ClientState)
    (conn : CachedConnection)
    (hc : cacheGet st.connectionCache (connectionKey u) = some conn)
    (hs : socketStale conn.socket = true) :
    (∀ s, conn.session = some s → s.destroyed = false →
      Effect.closeSession s.id ∈ (request env u st).effects) ∧
    (∀ i, Effect.destroySocket i ∉ (request env u st).effects) ∧
    (∀ alpn, env.connect = ConnectOutcome.ok alpn →
      ∃ conn2,
        cacheGet (request env u st).state.connectionCache (connectionKey u)
          = some conn2 ∧
        conn2.socket = freshSocket st.nextId alpn) := by
  refine ⟨?_, request_no_destroy env u st, ?_⟩
  · intro s hsess hdes
    have hmem : Effect.closeSession s.id ∈ closeSessionFx conn := by
      simp [closeSessionFx, hsess, hdes]
    cases hco : env.connect with
    | ok alpn =>
      rw [request_stale_eq env u st conn alpn hc hs hco]
      exact finishRequest_mem_fx _ _ _ _ _ _ _ (List.mem_append_left _ hmem)
    | err =>
      rw [request_stale_err_eq env u st conn hc hs hco]
      exact hmem
  · intro alpn hco
    obtain ⟨resp, conn2, _, h2, h3, _⟩ :=
      request_stale_spec env u st conn alpn hc hs hco
    exact ⟨conn2, h2, h3⟩

theorem claim3_witness :
    Effect.closeSession exSess.id ∈ (request exEnvH2 exURL exStaleState).effects :=
  (claim3 exEnvH2 exURL exStaleState exStaleConn (by decide) (by decide)).1
    exSess (by decide) (by decide)

/-- Claim C4 is false as stated: with a stale cached entry present and
a failing connect, request() propagates the error but the entry that
existed before the call is gone afterwards (it was evicted before the
connect was attempted). -/
theorem claim4_counterexample :
    cacheGet exStaleState.connectionCache "example.com:443" = some exStaleConn ∧
    (request exEnvErr exURL exStaleState).result = .error () ∧
    cacheGet (request exEnvErr exURL exStaleState).state.connectionCache
      "example.com:443" = none := by
  decide

/-- Claim C4 (amended): if the TLS connect fails, request() propagates
the error and inserts no entry; when the key was absent the cache (and
whole state) is unchanged; when the entry found was stale it has
already been evicted and stays absent (the rest of the cache is
untouched); when the entry found was live, no connect is attempted at
all and the request succeeds. -/
theorem claim4 (env : RequestEnv) (u : ParsedURL) (st : ClientState)
    (he : env.connect = ConnectOutcome.err) :
    (cacheGet st.connectionCache (connectionKey u) = none →
      (request env u st).result = .error () ∧ (request env u st).state = st) ∧
    (∀ conn, cacheGet st.connectionCache (connectionKey u) = some conn →
      socketStale conn.socket = true →
      (request env u st).result = .error () ∧
      cacheGet (request env u st).state.connectionCache (connectionKey u)
        = none ∧
      (request env u st).state.connectionCache
        = mapDelete st.connectionCache (connectionKey u)) ∧
    (∀ conn, cacheGet st.connectionCache (connectionKey u) = some conn →
      socketStale conn.socket = false →
      ∃ resp, (request env u st).result = .ok resp) := by
  refine ⟨?_, ?_, ?_⟩
  · intro hc
    rw [request_miss_err_eq env u st hc he]
    exact ⟨rfl, rfl⟩
  · intro conn hc hst
    rw [request_stale_err_eq env u st conn hc hst he]
    exact ⟨rfl, cacheGet_mapDelete_self _ _, rfl⟩
  · intro conn hc hst
    obtain ⟨resp, conn2, h1, _⟩ := request_hit_spec env u st conn hc hst
    exact ⟨resp, h1⟩

theorem claim4_witness :
    (request exEnvErr exURL exStaleState).result = .error () ∧
    cacheGet (request exEnvErr exURL exStaleState).state.connectionCache
      (connectionKey exURL) = none ∧
    (request exEnvErr exURL exStaleState).state.connectionCache
      = mapDelete exStaleState.connectionCache (connectionKey exURL) :=
  (claim4 exEnvErr exURL exStaleState (by decide)).2.1 exStaleConn
    (by decide) (by decide)

/-- Claim C5: HTTP/2 session creation is lazy and idempotent per cached
connection: a new session is created exactly when no session exists or
the existing one is destroyed, and it is bound to the already
established transport of that connection (no new connection is ever
opened: the trace holds no handshake); otherwise the existing session
is reused unchanged. -/
theorem claim5 (res : Http2Res) (conn : CachedConnection) (st : ClientState) :
    handshakeCount (makeHttp2Request res conn st).effects = 0 ∧
    (makeHttp2Request res conn st).conn.socket = conn.socket ∧
    (needNewSession conn = true →
      ∃ s2, (makeHttp2Request res conn st).conn.session = some s2 ∧
        s2.boundSocket = conn.socket.id ∧ s2.destroyed = false ∧
        Effect.newSession s2.id conn.socket.id
          ∈ (makeHttp2Request res conn st).effects) ∧
    (needNewSession conn = false →
      (makeHttp2Request res conn st).conn.session = conn.session ∧
      ∀ sid sockid, Effect.newSession sid sockid
        ∉ (makeHttp2Request res conn st).effects) := by
  refine ⟨(makeHttp2Request_effects res conn st).1,
    makeHttp2Request_socket res conn st, ?_, ?_⟩
  · intro hn
    unfold makeHttp2Request
    simp only [hn, if_true]
    exact ⟨{ id := st.nextId, boundSocket := conn.socket.id, destroyed := false },
      by simp [makeHttp2Go], rfl, rfl, by simp [makeHttp2Go]⟩
  · intro hn
    cases hsess : conn.session with
    | none => simp [needNewSession, hsess] at hn
    | some s =>
      unfold makeHttp2Request
      simp [hn, hsess, makeHttp2Go]

theorem claim5_witness :
    handshakeCount (makeHttp2Request exHttp2 exLiveConn exEmpty).effects = 0 ∧
    (makeHttp2Request exHttp2 exLiveConnSess exEmpty).conn.session
      = exLiveConnSess.session ∧
    Effect.newSession 9 9 ∉ (makeHttp2Request exHttp2 exLiveConnSess exEmpty).effects :=
  ⟨(claim5 exHttp2 exLiveConn exEmpty).1,
   ((claim5 exHttp2 exLiveConnSess exEmpty).2.2.2 (by decide)).1,
   ((claim5 exHttp2 exLiveConnSess exEmpty).2.2.2 (by decide)).2 9 9⟩

theorem all_filter_self {α : Type} (p : α → Bool) (l : List α) :
    (l.filter p).all p = true := by
  rw [List.all_eq_true]
  intro x hx
  exact (List.mem_filter.mp hx).2

/-- Claim C6: every response of the HTTP/2 path carries a header
mapping with no pseudo-header (no key starting with ":"); the :status
pseudo-header is instead parsed into the numeric statusCode field
(and absent :status parses as 0). -/
theorem claim6 (res : Http2Res) (conn : CachedConnection) (st : ClientState) :
    ((makeHttp2Request res conn st).resp.headers.all
      (fun p => !(strStarts p.1 ":"))) = true ∧
    (∀ p, res.headers.find? (fun q => q.1 == ":status") = some p → p.2 ≠ "" →
      (makeHttp2Request res conn st).resp.statusCode = jsParseInt p.2) ∧
    (res.headers.find? (fun q => q.1 == ":status") = none →
      (makeHttp2Request res conn st).resp.statusCode = some 0) := by
  have hresp : (makeHttp2Request res conn st).resp.headers
        = res.headers.filter (fun p => !(strStarts p.1 ":")) ∧
      (makeHttp2Request res conn st).resp.statusCode
        = jsParseInt (jsGetOr
            ((res.headers.find? (fun q => q.1 == ":status")).map (fun q => q.2))
            "0") := by
    unfold makeHttp2Request
    by_cases h : needNewSession conn
    · simp [h, makeHttp2Go]
    · simp only [h, if_false]
      cases hs : conn.session <;> simp [makeHttp2Go]
  refine ⟨?_, ?_, ?_⟩
  · rw [hresp.1]
    exact all_filter_self _ _
  · intro p hp hne
    rw [hresp.2, hp]
    simp [jsGetOr, jsOr, hne]
  · intro hp
    rw [hresp.2, hp]
    decide

theorem claim6_witness :
    ((makeHttp2Request exHttp2 exLiveConn exEmpty).resp.headers.all
      (fun p => !(strStarts p.1 ":"))) = true ∧
    (makeHttp2Request exHttp2 exLiveConn exEmpty).resp.statusCode
      = jsParseInt "200" :=
  ⟨(claim6 exHttp2 exLiveConn exEmpty).1,
   (claim6 exHttp2 exLiveConn exEmpty).2.1 (":status", "200")
     (by decide) (by decide)⟩

/-- Claim C7: closeAll() closes the session of every cached entry (if
present and not already destroyed), destroys every not-yet-destroyed
transport, empties the cache, is idempotent, and leaves the
cached-connection count at 0. -/
theorem claim7 (st : ClientState) :
    (closeAll st).1.connectionCache = [] ∧
    getCachedSocketCount (closeAll st).1 = 0 ∧
    closeAll (closeAll st).1 = ((closeAll st).1, []) ∧
    (∀ p ∈ st.connectionCache, ∀ s, p.2.session = some s →
      s.destroyed = false → Effect.closeSession s.id ∈ (closeAll st).2) ∧
    (∀ p ∈ st.connectionCache, p.2.socket.destroyed = false →
      Effect.destroySocket p.2.socket.id ∈ (closeAll st).2) := by
  refine ⟨rfl, rfl, by simp [closeAll], ?_, ?_⟩
  · intro p hp s hsess hdes
    have hmem : Effect.closeSession s.id ∈ closeConnFx p := by
      simp [closeConnFx, closeSessionFx, hsess, hdes]
    exact List.mem_flatten.mpr ⟨closeConnFx p, List.mem_map_of_mem _ hp, hmem⟩
  · intro p hp hdes
    have hmem : Effect.destroySocket p.2.socket.id ∈ closeConnFx p := by
      simp [closeConnFx, hdes]
    exact List.mem_flatten.mpr ⟨closeConnFx p, List.mem_map_of_mem _ hp, hmem⟩

theorem claim7_witness :
    getCachedSocketCount (closeAll exStaleState).1 = 0 ∧
    closeAll (closeAll exStaleState).1 = ((closeAll exStaleState).1, []) ∧
    Effect.closeSession exSess.id ∈ (closeAll exStaleState).2 ∧
    Effect.destroySocket exStaleSock.id ∈ (closeAll exStaleState).2 :=
  ⟨(claim7 exStaleState).2.1, (claim7 exStaleState).2.2.1,
   (claim7 exStaleState).2.2.2.1 ("example.com:443", exStaleConn)
     (by decide) exSess (by decide) (by decide),
   (claim7 exStaleState).2.2.2.2 ("example.com:443", exStaleConn)
     (by decide) (by decide)⟩

theorem finishRequest_false_cache (env : RequestEnv) (key : String)
    (conn : CachedConnection) (st : ClientState) (fx : List Effect) :
    (finishRequest env key conn false st fx).state.connectionCache
      = st.connectionCache := by
  unfold finishRequest
  by_cases h : conn.socket.alpnProtocol == AlpnValue.str "h2"
  · simp [h, makeHttp2Request_cache]
  · simp [h]

theorem finishRequest_ok_exists (env : RequestEnv) (key : String)
    (conn : CachedConnection) (stored : Bool) (st : ClientState)
    (fx : List Effect) :
    ∃ resp, (finishRequest env key conn stored st fx).result = .ok resp := by
  unfold finishRequest
  by_cases h : conn.socket.alpnProtocol == AlpnValue.str "h2" <;> simp [h]

theorem finishRequest_handshakes (env : RequestEnv) (key : String)
    (conn : CachedConnection) (stored : Bool) (st : ClientState)
    (fx : List Effect) :
    handshakeCount (finishRequest env key conn stored st fx).effects
      = handshakeCount fx := by
  unfold finishRequest
  by_cases h : conn.socket.alpnProtocol == AlpnValue.str "h2"
  · simp [h, handshakeCount_append, (makeHttp2Request_effects env.http2 conn st).1]
  · simp [h, handshakeCount_append, makeHttp1Request, handshakeCount]

theorem requestWith_false_ok_eq (env : RequestEnv) (u : ParsedURL)
    (st : ClientState) (alpn : AlpnValue)
    (ha : env.connect = ConnectOutcome.ok alpn) :
    requestWith env u false st =
      finishRequest env (connectionKey u)
        { socket := freshSocket st.nextId alpn, session := none } false
        { st with nextId := st.nextId + 1 } [.handshake st.nextId] := by
  unfold requestWith createTLSConnection
  simp [ha]

theorem requestWith_false_err_eq (env : RequestEnv) (u : ParsedURL)
    (st : ClientState) (he : env.connect = ConnectOutcome.err) :
    requestWith env u false st
      = { result := .error (), state := st, effects := [] } := by
  unfold requestWith createTLSConnection
  simp [he]

/-- Claim C8: a request with connection reuse disabled (reuseSocket =
false) always creates a new transport (one handshake per successful
call) and never touches the connection cache: the cache mapping is the
same after the call as before it, and a connect failure propagates. -/
theorem claim8 (env : RequestEnv) (u : ParsedURL) (st : ClientState) :
    (requestWith env u false st).state.connectionCache = st.connectionCache ∧
    (∀ alpn, env.connect = ConnectOutcome.ok alpn →
      handshakeCount (requestWith env u false st).effects = 1 ∧
      ∃ resp, (requestWith env u false st).result = .ok resp) ∧
    (env.connect = ConnectOutcome.err →
      (requestWith env u false st).result = .error ()) := by
  refine ⟨?_, ?_, ?_⟩
  · cases hco : env.connect with
    | ok alpn =>
      rw [requestWith_false_ok_eq env u st alpn hco]
      rw [finishRequest_false_cache]
    | err =>
      rw [requestWith_false_err_eq env u st hco]
  · intro alpn hco
    rw [requestWith_false_ok_eq env u st alpn hco]
    refine ⟨?_, finishRequest_ok_exists _ _ _ _ _ _⟩
    rw [finishRequest_handshakes]
    simp [handshakeCount]
  · intro hco
    rw [requestWith_false_err_eq env u st hco]

theorem claim8_witness :
    (requestWith exEnvH2 exURL false exLiveState).state.connectionCache
      = exLiveState.connectionCache ∧
    handshakeCount (requestWith exEnvH2 exURL false exLiveState).effects = 1 :=
  ⟨(claim8 exEnvH2 exURL exLiveState).1,
   ((claim8 exEnvH2 exURL exLiveState).2.1 (.str "h2") (by decide)).1⟩

/-- Claim C9: the alpnProtocol field of every result (on either path)
is the `socket.alpnProtocol || undefined` coercion of the transport's
negotiated value: never the value false and never the empty string;
it is either absent or a nonempty protocol string. -/
theorem claim9 (res1 : Http1Res) (socket : Socket) (res2 : Http2Res)
    (conn : CachedConnection) (st : ClientState) (v : AlpnValue) :
    (makeHttp1Request res1 socket).1.alpnProtocol
      = socket.alpnProtocol.orUndefined ∧
    (makeHttp2Request res2 conn st).resp.alpnProtocol
      = conn.socket.alpnProtocol.orUndefined ∧
    v.orUndefined ≠ some "" ∧
    (v.orUndefined = none ∨ ∃ s, v.orUndefined = some s ∧ s ≠ "") ∧
    AlpnValue.falseVal.orUndefined = none := by
  refine ⟨by simp [makeHttp1Request], (makeHttp2Request_resp res2 conn st).2,
    ?_, ?_, rfl⟩
  · cases v with
    | str s => by_cases h : s = "" <;> simp [AlpnValue.orUndefined, h]
    | falseVal => simp [AlpnValue.orUndefined]
    | nullVal => simp [AlpnValue.orUndefined]
  · cases v with
    | str s => by_cases h : s = "" <;> simp [AlpnValue.orUndefined, h]
    | falseVal => simp [AlpnValue.orUndefined]
    | nullVal => simp [AlpnValue.orUndefined]

theorem claim9_witness :
    (makeHttp1Request exHttp1 exSockFalse).1.alpnProtocol = none ∧
    AlpnValue.falseVal.orUndefined = none :=
  ⟨(claim9 exHttp1 exSockFalse exHttp2 exLiveConn exEmpty AlpnValue.falseVal).1,
   (claim9 exHttp1 exSockFalse exHttp2 exLiveConn exEmpty AlpnValue.falseVal).2.2.2.2⟩

theorem key443 (u : ParsedURL) (h : jsParseInt u.port = none) :
    connectionKey u = u.hostname ++ ":443" := by
  unfold connectionKey
  rw [h]
  have h2 : toString (jsNumOr (none : Option Int) 443) = "443" := rfl
  rw [h2, String.append_assoc]
  rfl

/-- Claim C10: a URL with no parseable numeric port defaults to port
443 and is keyed "<hostname>:443"; a URL without a port and the same
URL with an explicit :443 parse to the same URL value (WHATWG default
port elision), hence share one cache key, and a request for the
explicit-:443 URL right after a successful request for the bare URL
performs no handshake. -/
theorem claim10 :
    (∀ u : ParsedURL, jsParseInt u.port = none →
      connectionKey u = u.hostname ++ ":443") ∧
    (∀ hostname pathname search : String,
      mkHttpsURL hostname (some 443) pathname search
        = mkHttpsURL hostname none pathname search ∧
      connectionKey (mkHttpsURL hostname none pathname search)
        = hostname ++ ":443") ∧
    (∀ (env1 env2 : RequestEnv) (st : ClientState)
      (hostname pathname search : String) (resp1 : ClientResponse),
      (request env1 (mkHttpsURL hostname none pathname search) st).result
        = .ok resp1 →
      handshakeCount (request env2 (mkHttpsURL hostname (some 443) pathname search)
        (request env1 (mkHttpsURL hostname none pathname search) st).state).effects
        = 0) := by
  refine ⟨key443, ?_, ?_⟩
  · intro hostname pathname search
    exact ⟨rfl, key443 _ rfl⟩
  · intro env1 env2 st hostname pathname search resp1 h
    have hu : mkHttpsURL hostname (some 443) pathname search
        = mkHttpsURL hostname none pathname search := rfl
    rw [hu]
    obtain ⟨conn2, h2, hlive⟩ := request_ok_live env1 _ st resp1 h
    obtain ⟨resp, conn3, _, _, _, h4⟩ :=
      request_hit_spec env2 _ (request env1 _ st).state conn2 h2 hlive
    exact h4

theorem claim10_witness :
    handshakeCount (request exEnvH1 (mkHttpsURL "example.com" (some 443) "/test" "")
      (request exEnvH2 (mkHttpsURL "example.com" none "/test" "") exEmpty).state).effects
      = 0 :=
  claim10.2.2 exEnvH2 exEnvH1 exEmpty "example.com" "/test" "" exResp2 (by decide)

end TLSReuse
